import Mathlib

/-!
Shallow embedding of the cluster connection pool of `influx-rs`
(`src/transport.rs` and `src/client.rs`): instance pool with round-robin
selection, index-based disable/enable, the timed re-admission closure, URL
building with appended credentials, and the request dispatcher.

Rust `Vec<Instance>` becomes `List Instance`; `Vec::push` appends at the end,
`Vec::remove(pos)` is `eraseIdx` guarded by a bounds check (out of range
panics), `Vec::retain(p)` is `List.filter`.  Operations that can panic return
`Except Panic`.  A spawned re-admission thread is recorded as an armed timer
`(host, captured timeout)`; firing it executes the closure body
(`timer_body`).  The spawned body of `request` is empty in the source and is
embedded as the identity on the status cell (`request_spawn_body`).
-/

namespace InfluxRs

open scoped List

/-- `Scheme` from transport.rs lines 5-9. -/
inductive Scheme
  | Http
  | Https
deriving DecidableEq, Repr

/-- `fmt::String for Scheme` (transport.rs lines 17-28). -/
def Scheme.fmt : Scheme → String
  | .Http => "http"
  | .Https => "https"

/-- `Instance` from transport.rs lines 31-36: scheme, host, port.
`url::Host` is embedded as the host string; equality is structural, as the
derived `PartialEq` on the Rust side. -/
structure Instance where
  scheme : Scheme
  host : String
  port : Nat
deriving DecidableEq, Repr

/-- `Default for Instance` (transport.rs lines 38-46). -/
def Instance.mkDefault : Instance :=
  { scheme := .Http, host := "127.0.0.1", port := 8086 }

/-- The ways the embedded operations can panic: `Vec` indexing / `Vec::remove`
out of bounds, and `Option::expect("No hosts left")` in `request`. -/
inductive Panic
  | indexOutOfBounds
  | expectNoHosts
deriving DecidableEq, Repr

/-- The mutable state of `Cluster` (client.rs lines 90-100): credentials,
failover timeout, the two instance lists, the rotation cursor, and the armed
re-admission timers (our record of the threads spawned by
`disable_instance`, each holding the timeout value cloned when it was
spawned).  The `hyper` client and the thread handles carry no pool state and
are omitted. -/
structure ClusterState where
  username : String
  password : String
  request_timeout : Option Nat
  failover_timeout : Int
  instances_available : List Instance
  instances_disabled : List Instance
  instances_available_pointer : Nat
  pending_timers : List (Instance × Int)
deriving DecidableEq, Repr

/-- `Default for Cluster` (client.rs lines 102-116). -/
def ClusterState.mkDefault : ClusterState :=
  { username := ""
    password := ""
    request_timeout := none
    failover_timeout := 60
    instances_available := [Instance.mkDefault]
    instances_disabled := []
    instances_available_pointer := 0
    pending_timers := [] }

/-- `Cluster::add_host` (transport.rs lines 78-80): push onto
`instances_available`. -/
def add_host (s : ClusterState) (new_host : Instance) : ClusterState :=
  { s with instances_available := s.instances_available ++ [new_host] }

/-- `Cluster::get_instance` (transport.rs lines 83-96), identical to
`Cluster::get_host` (client.rs lines 208-221).  Empty list: `None`.
Otherwise the pointer is reset to 0 only when it is strictly greater than
the length (the source's `>` comparison), the list is indexed (panicking
when the index is out of range, as Rust `Vec` indexing does), and the
pointer is incremented. -/
def get_instance (s : ClusterState) : Except Panic (Option Instance × ClusterState) :=
  if s.instances_available.isEmpty then
    .ok (none, s)
  else
    let p :=
      if s.instances_available_pointer > s.instances_available.length then 0
      else s.instances_available_pointer
    match s.instances_available[p]? with
    | none => .error .indexOutOfBounds
    | some host => .ok (some host, { s with instances_available_pointer := p + 1 })

/-- `Cluster::enable_instance` (transport.rs lines 99-102):
`Vec::remove(pos)` on `instances_disabled` (panics when `pos` is out of
bounds), then push onto `instances_available`. -/
def enable_instance (s : ClusterState) (pos : Nat) : Except Panic ClusterState :=
  match s.instances_disabled[pos]? with
  | none => .error .indexOutOfBounds
  | some host =>
      .ok { s with
              instances_disabled := s.instances_disabled.eraseIdx pos
              instances_available := s.instances_available ++ [host] }

/-- `Cluster::disable_instance` (transport.rs lines 105-117):
`Vec::remove(pos)` on `instances_available` (panics when out of bounds),
push the host onto `instances_disabled`, and spawn the re-admission thread;
the spawned thread is recorded as an armed timer holding the host and the
timeout value cloned at spawn time (line 111). -/
def disable_instance (s : ClusterState) (pos : Nat) : Except Panic ClusterState :=
  match s.instances_available[pos]? with
  | none => .error .indexOutOfBounds
  | some host =>
      .ok { s with
              instances_available := s.instances_available.eraseIdx pos
              instances_disabled := s.instances_disabled ++ [host]
              pending_timers := s.pending_timers ++ [(host, s.failover_timeout)] }

/-- `Cluster::remove_instance_by_attrs` (transport.rs lines 123-127):
`Vec::retain(|x| **x != instance)`. -/
def remove_instance_by_attrs (l : List Instance) (inst : Instance) : List Instance :=
  l.filter (fun x => x != inst)

/-- The body of the thread spawned by `disable_instance` (transport.rs lines
112-116), run when its sleep expires: remove the host from
`instances_disabled` by attributes, then push it onto
`instances_available` unconditionally. -/
def timer_body (s : ClusterState) (host : Instance) : ClusterState :=
  { s with
      instances_disabled := remove_instance_by_attrs s.instances_disabled host
      instances_available := s.instances_available ++ [host] }

/-- `Cluster::set_failover_timeout` (client.rs lines 186-188). -/
def set_failover_timeout (s : ClusterState) (value : Int) : ClusterState :=
  { s with failover_timeout := value }

/-- `Cluster::get_instances_available` (client.rs lines 191-193): a copy of
the vector. -/
def get_instances_available (s : ClusterState) : List Instance :=
  s.instances_available

/-- `Cluster::get_instances_disabled` (client.rs lines 196-198). -/
def get_instances_disabled (s : ClusterState) : List Instance :=
  s.instances_disabled

/-- The `url::Url` record as `build_url` fills it (transport.rs lines
134-150).  The query is kept as the pair list handed to
`form_urlencoded::serialize_owned` (the url crate's serializer is external
to this repository and order/multiplicity preserving). -/
structure Url where
  scheme : String
  username : String
  password : Option String
  host : String
  port : Option Nat
  default_port : Option Nat
  path : List String
  query : Option (List (String × String))
  fragment : Option String
deriving DecidableEq, Repr

/-- `Cluster::build_url` (transport.rs lines 130-151). -/
def build_url (inst : Instance) (path : List String)
    (query : List (String × String)) : Url :=
  { scheme := inst.scheme.fmt
    username := ""
    password := none
    host := inst.host
    port := some inst.port
    default_port := some inst.port
    path := path
    query := some query
    fragment := none }

/-- The errors of the spec's taxonomy (spec section 7). -/
inductive RequestError
  | NoInstancesAvailable
  | TransportFailure
deriving DecidableEq, Repr

/-- Modelled from the spec: the source references `RequestStatus<(), ()>` and
`RequestStatus::new()` (transport.rs line 173) but does not define them in
the repository's files.  Spec section 3: the handle holds one of Pending,
Complete(result), Failed(error) and is created in the Pending state. -/
inductive RequestStatus
  | Pending
  | Complete (result : Unit)
  | Failed (error : RequestError)
deriving DecidableEq, Repr

/-- Modelled from the spec: `RequestStatus::new()` creates the handle in the
Pending state (spec section 3: "Created in Pending state at request
submission"). -/
def RequestStatus.new : RequestStatus := .Pending

/-- `hyper::method::Method`, as far as the dispatcher's signature needs. -/
inductive Method
  | Get
  | Post
  | Delete
deriving DecidableEq, Repr

/-- The closure passed to `Thread::spawn` in `Cluster::request`
(transport.rs lines 176-178).  Its body is empty, so it is the identity on
the shared status cell: it never writes to the handle. -/
def request_spawn_body (status : RequestStatus) : RequestStatus := status

/-- What `Cluster::request` hands back, together with the url it built for
the would-be call. -/
structure RequestOutcome where
  status : RequestStatus
  url : Url
deriving DecidableEq, Repr

/-- `Cluster::request` (transport.rs lines 155-180): take an instance via
`get_instance`, panicking through `expect("No hosts left")` when it yields
`None`; append `("u", username)` and `("p", password)` to the caller's
query (an absent query starts from the empty vector); build the url; create
the status cell with `RequestStatus::new()`; spawn the (empty) worker and
return the cell.  The pool lists, timers and configuration are untouched;
only the rotation pointer moved inside `get_instance`. -/
def request (s : ClusterState) (method : Method) (path : List String)
    (query : Option (List (String × String))) :
    Except Panic (RequestOutcome × ClusterState) :=
  match get_instance s with
  | .error e => .error e
  | .ok (none, _) => .error .expectNoHosts
  | .ok (some inst, s') =>
      let q := query.getD [] ++ [("u", s.username), ("p", s.password)]
      let url := build_url inst path q
      .ok ({ status := RequestStatus.new, url := url }, s')

/-- The pool's mutation operations, as the claims range over them: `add_host`,
index-based demote (`disable_instance`) and promote (`enable_instance`), and
the scheduler's timed re-admission (the spawned closure firing). -/
inductive PoolOp
  | add (i : Instance)
  | demote (pos : Nat)
  | promote (pos : Nat)
  | fire (i : Instance)
deriving DecidableEq, Repr

/-- One mutation step; `none` when the operation panics. -/
def applyOp (s : ClusterState) : PoolOp → Option ClusterState
  | .add i => some (add_host s i)
  | .demote pos => (disable_instance s pos).toOption
  | .promote pos => (enable_instance s pos).toOption
  | .fire i => some (timer_body s i)

/-- Run a sequence of mutation operations; `none` as soon as one panics. -/
def runOps : ClusterState → List PoolOp → Option ClusterState
  | s, [] => some s
  | s, op :: rest =>
      match applyOp s op with
      | some s' => runOps s' rest
      | none => none

/-- No instance value sits in both collections at once (the claimed pool
invariant). -/
def noBoth (s : ClusterState) : Prop :=
  ∀ i : Instance, ¬(i ∈ s.instances_available ∧ i ∈ s.instances_disabled)

/-- The pool's combined contents are duplicate-free. -/
def poolNodup (s : ClusterState) : Prop :=
  (s.instances_available ++ s.instances_disabled).Nodup

/-- The side conditions under which the mutation operations preserve
duplicate-freedom: an add only of a value not already in the pool, and a
timed re-admission only while its instance is still disabled.  Demote and
promote need none. -/
def opGuard (s : ClusterState) : PoolOp → Bool
  | .add i => decide (i ∉ s.instances_available) && decide (i ∉ s.instances_disabled)
  | .demote _ => true
  | .promote _ => true
  | .fire i => decide (i ∈ s.instances_disabled)

/-- A whole trace satisfies the guards along the way (trivially past a
panic, since no further state exists). -/
def guardedTrace : ClusterState → List PoolOp → Bool
  | _, [] => true
  | s, op :: rest =>
      opGuard s op &&
        (match applyOp s op with
         | some s' => guardedTrace s' rest
         | none => true)

/-! Concrete states used by the counterexamples, divergence evaluations and
witnesses. -/

def instA : Instance := { scheme := .Http, host := "a", port := 1 }

def instB : Instance := { scheme := .Http, host := "b", port := 2 }

def instC : Instance := { scheme := .Http, host := "c", port := 3 }

/-- A cluster state with the default configuration and the given pool
contents. -/
def basePool (avail dis : List Instance) (ptr : Nat) : ClusterState :=
  { username := ""
    password := ""
    request_timeout := none
    failover_timeout := 60
    instances_available := avail
    instances_disabled := dis
    instances_available_pointer := ptr
    pending_timers := [] }

/-! Helper lemmas. -/

/-- A list is a permutation of the element at a valid index consed onto the
list with that index erased. -/
theorem perm_getElem_cons_eraseIdx {α : Type} :
    ∀ (l : List α) (i : Nat) (h : i < l.length), l.Perm (l[i] :: l.eraseIdx i)
  | a :: t, 0, _ => by simp
  | a :: t, i + 1, h => by
      have ih := perm_getElem_cons_eraseIdx t i (by simpa using h)
      simpa using (ih.cons a).trans (List.Perm.swap _ _ _)

/-- Duplicate-freedom of the combined pool implies the two collections are
disjoint. -/
theorem poolNodup_noBoth {s : ClusterState} (hn : poolNodup s) : noBoth s := by
  intro i hi
  exact (List.disjoint_of_nodup_append hn) hi.1 hi.2

/-- `remove_instance_by_attrs` of an absent value changes nothing. -/
theorem remove_instance_by_attrs_of_not_mem {l : List Instance} {i : Instance}
    (h : i ∉ l) : remove_instance_by_attrs l i = l := by
  unfold remove_instance_by_attrs
  refine List.filter_eq_self.mpr (fun a ha => ?_)
  simp only [bne_iff_ne, ne_eq, decide_eq_true_eq]
  exact fun e => h (e ▸ ha)

/-- One guarded mutation step preserves duplicate-freedom of the combined
pool. -/
theorem applyOp_poolNodup {s s' : ClusterState} {op : PoolOp}
    (hn : poolNodup s) (hg : opGuard s op = true) (h : applyOp s op = some s') :
    poolNodup s' := by
  cases op with
  | add i =>
      simp only [applyOp, Option.some.injEq] at h
      subst h
      simp only [opGuard, Bool.and_eq_true, decide_eq_true_eq] at hg
      unfold poolNodup add_host at *
      have hperm : ((s.instances_available ++ [i]) ++ s.instances_disabled).Perm
          (i :: (s.instances_available ++ s.instances_disabled)) := by
        rw [List.append_assoc]
        exact List.perm_middle
      refine hperm.symm.nodup ?_
      refine List.nodup_cons.mpr ⟨?_, hn⟩
      simp only [List.mem_append]
      rintro (h1 | h2)
      · exact hg.1 h1
      · exact hg.2 h2
  | demote pos =>
      simp only [applyOp] at h
      unfold disable_instance at h
      cases hp : s.instances_available[pos]? with
      | none => rw [hp] at h; cases h
      | some host =>
          rw [hp] at h
          simp only [Except.toOption, Option.some.injEq] at h
          subst h
          unfold poolNodup at *
          obtain ⟨hlt, hhost⟩ := List.getElem?_eq_some_iff.mp hp
          have hperm1 : s.instances_available.Perm
              (host :: s.instances_available.eraseIdx pos) := by
            have hq := perm_getElem_cons_eraseIdx s.instances_available pos hlt
            rwa [hhost] at hq
          have hperm : (s.instances_available.eraseIdx pos ++
              (s.instances_disabled ++ [host])).Perm
              (s.instances_available ++ s.instances_disabled) :=
            calc s.instances_available.eraseIdx pos ++ (s.instances_disabled ++ [host])
                ~ s.instances_available.eraseIdx pos ++ (host :: s.instances_disabled) :=
                  List.Perm.append_left _ (List.perm_append_singleton _ _)
              _ ~ host :: (s.instances_available.eraseIdx pos ++ s.instances_disabled) :=
                  List.perm_middle
              _ ~ s.instances_available ++ s.instances_disabled :=
                  (hperm1.append_right _).symm
          exact hperm.symm.nodup hn
  | promote pos =>
      simp only [applyOp] at h
      unfold enable_instance at h
      cases hp : s.instances_disabled[pos]? with
      | none => rw [hp] at h; cases h
      | some host =>
          rw [hp] at h
          simp only [Except.toOption, Option.some.injEq] at h
          subst h
          unfold poolNodup at *
          obtain ⟨hlt, hhost⟩ := List.getElem?_eq_some_iff.mp hp
          have hperm1 : s.instances_disabled.Perm
              (host :: s.instances_disabled.eraseIdx pos) := by
            have hq := perm_getElem_cons_eraseIdx s.instances_disabled pos hlt
            rwa [hhost] at hq
          have hperm : ((s.instances_available ++ [host]) ++
              s.instances_disabled.eraseIdx pos).Perm
              (s.instances_available ++ s.instances_disabled) :=
            calc (s.instances_available ++ [host]) ++ s.instances_disabled.eraseIdx pos
                ~ (host :: s.instances_available) ++ s.instances_disabled.eraseIdx pos :=
                  (List.perm_append_singleton _ _).append_right _
              _ = host :: (s.instances_available ++ s.instances_disabled.eraseIdx pos) := rfl
              _ ~ s.instances_available ++ (host :: s.instances_disabled.eraseIdx pos) :=
                  List.perm_middle.symm
              _ ~ s.instances_available ++ s.instances_disabled :=
                  List.Perm.append_left _ hperm1.symm
          exact hperm.symm.nodup hn
  | fire i =>
      simp only [applyOp, Option.some.injEq] at h
      subst h
      simp only [opGuard, decide_eq_true_eq] at hg
      unfold poolNodup timer_body remove_instance_by_attrs at *
      have hdis : s.instances_disabled.Nodup := (List.nodup_append.mp hn).2.1
      have hfe : s.instances_disabled.filter (fun x => x != i) =
          s.instances_disabled.erase i := (hdis.erase_eq_filter i).symm
      rw [hfe]
      have hperm1 : s.instances_disabled.Perm (i :: s.instances_disabled.erase i) :=
        List.perm_cons_erase hg
      have hperm : ((s.instances_available ++ [i]) ++
            s.instances_disabled.erase i).Perm
          (s.instances_available ++ s.instances_disabled) := by
        calc (s.instances_available ++ [i]) ++ s.instances_disabled.erase i
            ~ (i :: s.instances_available) ++ s.instances_disabled.erase i :=
              (List.perm_append_singleton _ _).append_right _
          _ = i :: (s.instances_available ++ s.instances_disabled.erase i) := rfl
          _ ~ s.instances_available ++ (i :: s.instances_disabled.erase i) :=
              List.perm_middle.symm
          _ ~ s.instances_available ++ s.instances_disabled :=
              List.Perm.append_left _ hperm1.symm
      exact hperm.symm.nodup hn

/-- A guarded, panic-free trace preserves duplicate-freedom. -/
theorem runOps_poolNodup :
    ∀ (ops : List PoolOp) (s s' : ClusterState), poolNodup s →
      guardedTrace s ops = true → runOps s ops = some s' → poolNodup s'
  | [], s, s', hn, _, hrun => by
      simp only [runOps, Option.some.injEq] at hrun
      exact hrun ▸ hn
  | op :: rest, s, s', hn, hg, hrun => by
      simp only [guardedTrace, Bool.and_eq_true] at hg
      simp only [runOps] at hrun
      cases ha : applyOp s op with
      | none => rw [ha] at hrun; cases hrun
      | some s1 =>
          rw [ha] at hrun
          have hn1 : poolNodup s1 := applyOp_poolNodup hn hg.1 ha
          have hg1 : guardedTrace s1 rest = true := by
            have := hg.2
            rw [ha] at this
            exact this
          exact runOps_poolNodup rest s1 s' hn1 hg1 hrun

/-! Claim C1. -/

/-- The final state of the trace demote(0) then add(instA) from a pool whose
only available instance is instA. -/
def c1Final : ClusterState :=
  (runOps (basePool [instA] [] 0) [PoolOp.demote 0, PoolOp.add instA]).getD
    (basePool [instA] [] 0)

/-- Claim C1, counterexample: from available = [instA], the mutation sequence
demote(0); add(instA) — both operations of the pool — ends with instA present
in `available` and in `disabled` at once, so the invariant fails for this
sequence of the pool's mutation operations. -/
theorem C1_counterexample :
    (runOps (basePool [instA] [] 0) [PoolOp.demote 0, PoolOp.add instA]).isSome = true ∧
    instA ∈ c1Final.instances_available ∧ instA ∈ c1Final.instances_disabled := by
  decide

/-- Claim C1 (amended): for every sequence of the pool's mutation operations
(add, demote, promote, timed re-admission) in which every add is of an
instance value not already in the pool and every timed re-admission fires
while its instance is still in `disabled`, run from a state whose combined
contents are duplicate-free and not ending in a panic, no Instance value is
simultaneously present in both `available` and `disabled` in the final
state. -/
theorem C1_pool_partition_invariant (s s' : ClusterState) (ops : List PoolOp)
    (hn : poolNodup s) (hg : guardedTrace s ops = true)
    (hrun : runOps s ops = some s') : noBoth s' :=
  poolNodup_noBoth (runOps_poolNodup ops s s' hn hg hrun)

/-- Claim C1 witness: the amended invariant applied to the concrete trace
demote(0); fire(instA) from available = [instA, instB]. -/
theorem C1_pool_partition_invariant_witness :
    noBoth { username := ""
             password := ""
             request_timeout := none
             failover_timeout := 60
             instances_available := [instB, instA]
             instances_disabled := []
             instances_available_pointer := 0
             pending_timers := [(instA, 60)] } :=
  C1_pool_partition_invariant (basePool [instA, instB] [] 0) _
    [PoolOp.demote 0, PoolOp.fire instA] (by unfold poolNodup; decide)
    (by decide) (by decide)

/-! Claim C2. -/

/-- Claim C2: with available = [instA, instB, instC] and the cursor at 0,
three consecutive selections do return instA, instB, instC in rotation
order — but the fourth call, instead of wrapping and returning instA again,
fails the reset check (the source compares the cursor with `>` rather than
`>=`), indexes position 3 of a length-3 vector and panics. -/
theorem C2_fourth_select_panics :
    get_instance (basePool [instA, instB, instC] [] 0) =
      .ok (some instA, basePool [instA, instB, instC] [] 1) ∧
    get_instance (basePool [instA, instB, instC] [] 1) =
      .ok (some instB, basePool [instA, instB, instC] [] 2) ∧
    get_instance (basePool [instA, instB, instC] [] 2) =
      .ok (some instC, basePool [instA, instB, instC] [] 3) ∧
    get_instance (basePool [instA, instB, instC] [] 3) =
      .error Panic.indexOutOfBounds := by
  refine ⟨rfl, rfl, rfl, rfl⟩

/-! Claim C3. -/

/-- Claim C3: the selection operation is not panic-free.  With a single
available instance and the cursor at 1 (the state reached after one
selection), the cursor equals the length, the reset check `cursor > length`
does not fire, and indexing panics; an empty pool does yield None, and a
fresh single-instance pool yields the instance. -/
theorem C3_select_indexes_out_of_bounds :
    get_instance (basePool [instA] [] 1) = .error Panic.indexOutOfBounds ∧
    get_instance (basePool [] [] 0) = .ok (none, basePool [] [] 0) ∧
    get_instance (basePool [instA] [] 0) =
      .ok (some instA, basePool [instA] [] 1) := by
  refine ⟨rfl, rfl, rfl⟩

/-! Claim C4. -/

/-- Claim C4, counterexample: the code's demote and promote take a vector
index, not an instance value.  In the empty pool no instance is present in
either collection, yet demoting (disable_instance) or promoting
(enable_instance) at index 0 panics (`Vec::remove` out of bounds) instead of
being a no-op. -/
theorem C4_counterexample :
    disable_instance (basePool [] [] 0) 0 = .error Panic.indexOutOfBounds ∧
    enable_instance (basePool [] [] 0) 0 = .error Panic.indexOutOfBounds :=
  ⟨rfl, rfl⟩

/-- Claim C4 (amended): demote and promote are index-based; with an index at
or past the end of the respective collection they panic rather than no-op.
Value-based no-op-on-absence exists only in the scheduler's helper:
`remove_instance_by_attrs` of an instance absent from the list returns the
list unchanged (sizes unchanged, no panic). -/
theorem C4_index_ops_panic_value_removal_noop (s : ClusterState) (pos : Nat)
    (l : List Instance) (i : Instance)
    (h1 : s.instances_available.length ≤ pos)
    (h2 : s.instances_disabled.length ≤ pos)
    (h3 : i ∉ l) :
    disable_instance s pos = .error Panic.indexOutOfBounds ∧
    enable_instance s pos = .error Panic.indexOutOfBounds ∧
    remove_instance_by_attrs l i = l := by
  refine ⟨?_, ?_, remove_instance_by_attrs_of_not_mem h3⟩
  · unfold disable_instance
    rw [List.getElem?_eq_none h1]
  · unfold enable_instance
    rw [List.getElem?_eq_none h2]

/-- Claim C4 witness: the amended statement at the empty pool, index 0, and
the singleton list [instA] with the absent value instB. -/
theorem C4_index_ops_panic_value_removal_noop_witness :
    disable_instance (basePool [] [] 0) 0 = .error Panic.indexOutOfBounds ∧
    enable_instance (basePool [] [] 0) 0 = .error Panic.indexOutOfBounds ∧
    remove_instance_by_attrs [instA] instB = [instA] :=
  C4_index_ops_panic_value_removal_noop (basePool [] [] 0) 0 [instA] instB
    (by decide) (by decide) (by decide)

/-! Claim C5. -/

/-- Claim C5, counterexample: a submission while `available` is empty does
not return a handle set to Failed(NoInstancesAvailable); `request` panics
through `expect("No hosts left")` and no handle is created at all. -/
theorem C5_counterexample :
    request (basePool [] [] 0) Method.Get [] none = .error Panic.expectNoHosts ∧
    (request (basePool [] [] 0) Method.Get [] none).isOk = false :=
  ⟨rfl, rfl⟩

/-- Claim C5 (amended): for every submission made while `available` is empty,
`request` panics with expect("No hosts left"): no status handle is produced,
no network attempt is made, and the call does not block. -/
theorem C5_empty_pool_request_panics (s : ClusterState) (m : Method)
    (path : List String) (q : Option (List (String × String)))
    (h : s.instances_available = []) :
    request s m path q = .error Panic.expectNoHosts := by
  unfold request get_instance
  rw [h]
  rfl

/-- Claim C5 witness: the amended statement at a pool whose one instance has
been demoted, with a method, path and query supplied. -/
theorem C5_empty_pool_request_panics_witness :
    request (basePool [] [instA] 0) Method.Post ["db"] (some [("q", "x")]) =
      .error Panic.expectNoHosts :=
  C5_empty_pool_request_panics (basePool [] [instA] 0) Method.Post ["db"]
    (some [("q", "x")]) rfl

/-! Claim C6. -/

/-- Claim C6, counterexample: a re-admission timer for instA firing when
instA is no longer in `disabled` (here: already back in `available`) does
not leave the pool unchanged — it appends instA to `available` again,
introducing a duplicate. -/
theorem C6_counterexample :
    timer_body (basePool [instA] [] 0) instA = basePool [instA, instA] [] 0 ∧
    ¬ (timer_body (basePool [instA] [] 0) instA).instances_available.Nodup := by
  decide

/-- Claim C6 (amended): when a re-admission timer fires, every copy of the
instance is removed from `disabled` by value — a no-op when it is absent —
but the instance is then unconditionally appended to `available`; a stale
timer therefore leaves `disabled` unchanged yet still grows `available` by
one copy of the instance. -/
theorem C6_fire_appends_unconditionally (s : ClusterState) (i : Instance)
    (h : i ∉ s.instances_disabled) :
    (timer_body s i).instances_disabled = s.instances_disabled ∧
    (timer_body s i).instances_available = s.instances_available ++ [i] :=
  ⟨remove_instance_by_attrs_of_not_mem h, rfl⟩

/-- Claim C6 witness: the amended statement where instA's stale timer fires
on a pool holding only instB. -/
theorem C6_fire_appends_unconditionally_witness :
    (timer_body (basePool [instB] [] 0) instA).instances_disabled = [] ∧
    (timer_body (basePool [instB] [] 0) instA).instances_available =
      [instB] ++ [instA] :=
  C6_fire_appends_unconditionally (basePool [instB] [] 0) instA (by decide)

/-! Inversion helpers for `request` and `get_instance`. -/

/-- A successful `get_instance` that yields an instance only advances the
rotation pointer: lists, timers and configuration are untouched. -/
theorem get_instance_frame (s s1 : ClusterState) (inst : Instance)
    (h : get_instance s = .ok (some inst, s1)) :
    s1.instances_available = s.instances_available ∧
    s1.instances_disabled = s.instances_disabled ∧
    s1.pending_timers = s.pending_timers ∧
    s1.failover_timeout = s.failover_timeout := by
  unfold get_instance at h
  split at h
  · simp at h
  · split at h
    · dsimp only at h
      split at h
      · simp at h
      · simp only [Except.ok.injEq, Prod.mk.injEq] at h
        obtain ⟨-, hs⟩ := h
        subst hs
        exact ⟨rfl, rfl, rfl, rfl⟩
    · dsimp only at h
      split at h
      · simp at h
      · simp only [Except.ok.injEq, Prod.mk.injEq] at h
        obtain ⟨-, hs⟩ := h
        subst hs
        exact ⟨rfl, rfl, rfl, rfl⟩

/-- Inversion of a successful `request`: the instance came from
`get_instance` (which also produced the final state), and the outcome is a
fresh Pending handle whose url carries the caller query with the
credentials appended. -/
theorem request_ok_inv (s : ClusterState) (m : Method) (path : List String)
    (query : Option (List (String × String))) (out : RequestOutcome)
    (s' : ClusterState)
    (h : request s m path query = .ok (out, s')) :
    ∃ inst : Instance,
      get_instance s = .ok (some inst, s') ∧
      out = { status := RequestStatus.new
              url := build_url inst path
                  (query.getD [] ++ [("u", s.username), ("p", s.password)]) } := by
  unfold request at h
  cases hg : get_instance s with
  | error e =>
      rw [hg] at h
      simp at h
  | ok p =>
      obtain ⟨oi, s1⟩ := p
      cases oi with
      | none =>
          rw [hg] at h
          simp at h
      | some inst =>
          rw [hg] at h
          simp only [Except.ok.injEq, Prod.mk.injEq] at h
          obtain ⟨ho, hs⟩ := h
          refine ⟨inst, ?_, ho.symm⟩
          rw [hs]

/-! Claim C7. -/

/-- Claim C7: the dispatch path the claim describes does not exist.  On a
one-instance pool, `request` succeeds with a Pending handle and leaves
`disabled` and the armed timers empty, and the spawned worker body is the
identity on the status cell: no network call is made, so no transport
failure, no demotion and no Failed write can ever occur. -/
theorem C7_no_demotion_on_dispatch :
    ((request (basePool [instA] [] 0) Method.Get [] none).map
        (fun r => (r.1.status, r.2.instances_disabled, r.2.pending_timers))) =
      .ok (RequestStatus.Pending, ([] : List Instance),
        ([] : List (Instance × Int))) ∧
    request_spawn_body RequestStatus.Pending = RequestStatus.Pending ∧
    request_spawn_body (RequestStatus.Failed RequestError.TransportFailure) =
      RequestStatus.Failed RequestError.TransportFailure :=
  ⟨rfl, rfl, rfl⟩

/-! Claim C8. -/

/-- A cluster with credentials, used for the C8 counterexample. -/
def poolCred : ClusterState :=
  { basePool [instA] [] 0 with username := "admin", password := "pw" }

/-- Claim C8, counterexample: when the caller itself supplies a "u"
parameter, the built query is the caller pair followed by the appended
credentials, so the key "u" occurs twice — the credential parameters are
not "present exactly once" for every combination of caller parameters. -/
theorem C8_counterexample :
    ((request poolCred Method.Get [] (some [("u", "evil")])).map
        (fun r => r.1.url.query)) =
      .ok (some [("u", "evil"), ("u", "admin"), ("p", "pw")]) ∧
    (([("u", "evil"), ("u", "admin"), ("p", "pw")].map Prod.fst).count "u") = 2 :=
  ⟨rfl, rfl⟩

/-- Claim C8 (amended): the built query is always the caller-supplied
parameters followed by ("u", username) and ("p", password) — the appended
credentials are always present and always last — but caller-supplied
parameters are not deduplicated; when the caller supplies no "u" or "p"
key (in particular, no query at all), each credential key appears exactly
once. -/
theorem C8_credentials_appended_last (s : ClusterState) (m : Method)
    (path : List String) (query : Option (List (String × String)))
    (out : RequestOutcome) (s' : ClusterState)
    (h : request s m path query = .ok (out, s'))
    (hu : ((query.getD []).map Prod.fst).count "u" = 0)
    (hp : ((query.getD []).map Prod.fst).count "p" = 0) :
    out.url.query =
      some (query.getD [] ++ [("u", s.username), ("p", s.password)]) ∧
    ((query.getD [] ++ [("u", s.username), ("p", s.password)]).map
        Prod.fst).count "u" = 1 ∧
    ((query.getD [] ++ [("u", s.username), ("p", s.password)]).map
        Prod.fst).count "p" = 1 := by
  obtain ⟨inst, -, ho⟩ := request_ok_inv s m path query out s' h
  subst ho
  refine ⟨rfl, ?_, ?_⟩
  · rw [List.map_append, List.count_append, hu]
    rfl
  · rw [List.map_append, List.count_append, hp]
    rfl

/-- Claim C8 witness: the amended statement at a pool with credentials and a
caller query carrying one non-credential parameter. -/
theorem C8_credentials_appended_last_witness :
    (RequestOutcome.mk RequestStatus.new
        (build_url instA ["db"]
          ([("q", "x")] ++ [("u", ""), ("p", "")]))).url.query =
      some ([("q", "x")] ++ [("u", ""), ("p", "")]) ∧
    (([("q", "x")] ++ [("u", ""), ("p", "")]).map Prod.fst).count "u" = 1 ∧
    (([("q", "x")] ++ [("u", ""), ("p", "")]).map Prod.fst).count "p" = 1 :=
  C8_credentials_appended_last (basePool [instA] [] 0) Method.Get ["db"]
    (some [("q", "x")])
    (RequestOutcome.mk RequestStatus.new
      (build_url instA ["db"] ([("q", "x")] ++ [("u", ""), ("p", "")])))
    (basePool [instA] [] 1) rfl rfl rfl

/-! Claim C9. -/

/-- Claim C9: the timer armed by a demotion captures the failover timeout
in force at arm time: a later `set_failover_timeout` neither alters
already-armed timers nor the duration they captured, while a demotion after
the update arms its timer with the new value. -/
theorem C9_cooldown_captured_at_arm (s : ClusterState) (pos : Nat)
    (h0 : Instance) (d2 : Int)
    (hp : s.instances_available[pos]? = some h0) :
    (disable_instance s pos).map ClusterState.pending_timers =
      .ok (s.pending_timers ++ [(h0, s.failover_timeout)]) ∧
    (set_failover_timeout s d2).pending_timers = s.pending_timers ∧
    (disable_instance (set_failover_timeout s d2) pos).map
        ClusterState.pending_timers =
      .ok (s.pending_timers ++ [(h0, d2)]) := by
  refine ⟨?_, rfl, ?_⟩
  · unfold disable_instance
    rw [hp]
    rfl
  · unfold disable_instance set_failover_timeout
    dsimp only
    rw [hp]
    rfl

/-- Claim C9 witness: demoting the only instance captures the default 60s
cooldown; after setting the cooldown to 5, a fresh demotion captures 5. -/
theorem C9_cooldown_captured_at_arm_witness :
    (disable_instance (basePool [instA] [] 0) 0).map ClusterState.pending_timers =
      .ok ([] ++ [(instA, 60)]) ∧
    (set_failover_timeout (basePool [instA] [] 0) 5).pending_timers = [] ∧
    (disable_instance (set_failover_timeout (basePool [instA] [] 0) 5) 0).map
        ClusterState.pending_timers = .ok ([] ++ [(instA, 5)]) :=
  C9_cooldown_captured_at_arm (basePool [instA] [] 0) 0 instA 5 rfl

/-! Claim C10. -/

/-- Claim C10: every successful `request` returns a handle in the Pending
state, the spawned execution unit's body is the identity on the status cell
(so the handle is never written and remains Pending), and the dispatch
leaves `available`, `disabled` and the armed timers exactly as they were —
no instance is demoted and no failover timer armed. -/
theorem C10_request_never_resolves (s s' : ClusterState) (m : Method)
    (path : List String) (query : Option (List (String × String)))
    (out : RequestOutcome)
    (h : request s m path query = .ok (out, s')) :
    out.status = RequestStatus.Pending ∧
    (∀ st : RequestStatus, request_spawn_body st = st) ∧
    s'.instances_available = s.instances_available ∧
    s'.instances_disabled = s.instances_disabled ∧
    s'.pending_timers = s.pending_timers := by
  obtain ⟨inst, hg, ho⟩ := request_ok_inv s m path query out s' h
  obtain ⟨h1, h2, h3, -⟩ := get_instance_frame s s' inst hg
  subst ho
  exact ⟨rfl, fun _ => rfl, h1, h2, h3⟩

/-- The outcome of the C10 witness request. -/
def c10Out : RequestOutcome :=
  { status := RequestStatus.new
    url := build_url instA ["db"] [("u", ""), ("p", "")] }

/-- Claim C10 witness: the statement at a one-instance pool and a GET with
no caller query. -/
theorem C10_request_never_resolves_witness :
    c10Out.status = RequestStatus.Pending ∧
    (∀ st : RequestStatus, request_spawn_body st = st) ∧
    (basePool [instA] [] 1).instances_available =
      (basePool [instA] [] 0).instances_available ∧
    (basePool [instA] [] 1).instances_disabled =
      (basePool [instA] [] 0).instances_disabled ∧
    (basePool [instA] [] 1).pending_timers =
      (basePool [instA] [] 0).pending_timers :=
  C10_request_never_resolves (basePool [instA] [] 0) (basePool [instA] [] 1)
    Method.Get ["db"] none c10Out rfl

end InfluxRs
